import Mathlib

/-!
Verification development for a small Go MCP (Model Context Protocol) server.
The server exposes a JSON-RPC 2.0 endpoint over HTTP; the core logic is the
handler `handleMCP` together with `executeTool` and the startup tool
registration `setupTools` (src/main.go). We embed the JSON data model, the
envelope decoding performed by encoding/json Unmarshal into the `JSONRPCRequest`
struct, the method dispatch, and the two example tools, and prove the spec
claims about them.
-/

namespace MCP

/-- JSON values as decoded by encoding/json into `interface\x7b\x7d`.
Go decodes JSON numbers into float64; none of the server logic inspects
numeric payloads, so we model numbers by integers. -/
inductive Json where
  | null
  | bool (b : Bool)
  | num (n : Int)
  | str (s : String)
  | arr (elems : List Json)
  | obj (fields : List (String × Json))
deriving Repr

/-- Sequential value of a JSON object key, as Go object decoding processes
key/value pairs in order with a later occurrence overwriting an earlier one:
the last binding of the key, if any. -/
def lookupLast (fields : List (String × Json)) (key : String) : Option Json :=
  fields.foldl (fun acc p => if p.1 = key then some p.2 else acc) none

/-- Top-level field access on a JSON value: a binding of the key if the value
is an object, `none` otherwise. -/
def Json.getField : Json → String → Option Json
  | Json.obj fields, key => lookupLast fields key
  | _, _ => none

/-- All values bound to `key` in an object, in order. -/
def fieldOccs (fields : List (String × Json)) (key : String) : List Json :=
  (fields.filter (fun p => p.1 = key)).map (fun p => p.2)

/-- Values acceptable when Go decodes a JSON value into a `string` struct
field: a string sets the field, `null` is a no-op; anything else is an
UnmarshalTypeError. -/
def isStringOrNull : Json → Bool
  | Json.null => true
  | Json.str _ => true
  | _ => false

/-- The value a `string` struct field holds after Go object decoding: string
occurrences overwrite in order, `null` and ill-typed occurrences leave the
field unchanged (Go records the type error separately and keeps decoding),
starting from the zero value. -/
def stringFieldValue (fields : List (String × Json)) (key : String) : String :=
  (fieldOccs fields key).foldl
    (fun acc v => match v with | Json.str s => s | _ => acc) ""

/-- Go decoding of a `string` struct field that also reports type errors:
`none` when some occurrence of the key is neither a string nor `null`
(Unmarshal would return a non-nil error), otherwise the resulting value. -/
def decodeStringField (fields : List (String × Json)) (key : String) :
    Option String :=
  if (fieldOccs fields key).all isStringOrNull then
    some (stringFieldValue fields key)
  else none

/-- Go struct JSONRPCError: `\x7bcode, message, data\x7d` with data omitempty. -/
structure JSONRPCError where
  code : Int
  message : String
  data : Option Json := none
deriving Repr

/-- Go struct JSONRPCRequest after a successful Unmarshal.
`id` is `interface\x7b\x7d` (absent and `null` both leave the Go nil, modelled
as `Json.null`); `params` is a `json.RawMessage`, `none` when the key is
absent (nil RawMessage), otherwise the raw value, `null` included. -/
structure JSONRPCRequest where
  jsonrpc : String
  id : Json
  method : String
  params : Option Json
deriving Repr

/-- Go struct JSONRPCResponse: `result` and `error` both carry omitempty, so
presence on the wire is exactly `Option`-someness here; `id` has no omitempty
and a nil id is encoded as JSON `null`. -/
structure JSONRPCResponse where
  jsonrpc : String
  id : Json
  result : Option Json
  error : Option JSONRPCError
deriving Repr

/-- Model of `json.Unmarshal(body, &req)` for `req : JSONRPCRequest`, on a body that
parsed as the JSON value given: JSON `null` is a no-op leaving the zero
struct; an object decodes field-wise (`jsonrpc` and `method` are `string`
fields, `id` takes any value, `params` is a RawMessage taking any value);
any other top-level value is a type error, as is an ill-typed occurrence of
`jsonrpc` or `method`. `none` models Unmarshal returning a non-nil error. -/
def decodeRequest : Json → Option JSONRPCRequest
  | Json.null =>
      some { jsonrpc := "", id := Json.null, method := "", params := none }
  | Json.obj fields =>
      match decodeStringField fields "jsonrpc",
            decodeStringField fields "method" with
      | some jv, some mv =>
          some { jsonrpc := jv,
                 id := (lookupLast fields "id").getD Json.null,
                 method := mv,
                 params := lookupLast fields "params" }
      | _, _ => none
  | _ => none

/-- Go struct Tool: name, description and a free-form input schema. -/
structure Tool where
  name : String
  description : String
  inputSchema : Json
deriving Repr

/-- Go map assignment `m[key] = v` on the registry, modelled on an
association list: overwrite the existing binding or append a new one. -/
def mapInsert (m : List (String × Tool)) (key : String) (v : Tool) :
    List (String × Tool) :=
  if m.any (fun p => p.1 = key) then
    m.map (fun p => if p.1 = key then (key, v) else p)
  else m ++ [(key, v)]

/-- Go map lookup `m[key]` on the registry model. -/
def mapLookup (m : List (String × Tool)) (key : String) : Option Tool :=
  (m.find? (fun p => p.1 = key)).map (fun p => p.2)

/-- The system_info tool descriptor registered by setupTools. -/
def systemInfoTool : Tool :=
  { name := "system_info",
    description := "Get system information",
    inputSchema := Json.obj
      [("type", Json.str "object"),
       ("properties", Json.obj [])] }

/-- The echo tool descriptor registered by setupTools. -/
def echoTool : Tool :=
  { name := "echo",
    description := "Echo back a message",
    inputSchema := Json.obj
      [("type", Json.str "object"),
       ("properties", Json.obj
         [("message", Json.obj
           [("type", Json.str "string"),
            ("description", Json.str "Message to echo")])]),
       ("required", Json.arr [Json.str "message"])] }

/-- setupTools: the two map assignments performed once at startup. -/
def setupTools : List (String × Tool) :=
  mapInsert (mapInsert [] "system_info" systemInfoTool) "echo" echoTool

/-- Runtime facts the system_info tool reports (runtime.GOOS, runtime.GOARCH,
runtime.Version(), runtime.NumCPU()); parameters of the model since they are
host properties, not program logic. -/
structure SysInfo where
  goos : String
  goarch : String
  goVersion : String
  numCPU : Nat
deriving Repr

/-- The Sprintf text produced by the system_info tool. -/
def systemInfoText (si : SysInfo) : String :=
  "OS: " ++ si.goos ++ "\nArch: " ++ si.goarch ++ "\nGo Version: " ++
    si.goVersion ++ "\nCPUs: " ++ toString si.numCPU

/-- The single-text-entry content map both tools return:
`\x7b"content": [\x7b"type": "text", "text": <text>\x7d]\x7d`. -/
def textContentResult (text : String) : Json :=
  Json.obj [("content", Json.arr
    [Json.obj [("type", Json.str "text"), ("text", Json.str text)]])]

/-- The in-band payload executeTool returns for an unrecognized name. -/
def unknownToolResult : Json :=
  Json.obj [("error", Json.str "Unknown tool")]

/-- The ignored-error Unmarshal of the echo tool arguments into a struct with
one `string` field `message`: only an object contributes a value; `null`, an
absent RawMessage (Unmarshal of nil bytes errors) and any non-object value
leave the zero value. The returned error is discarded by the source. -/
def decodeEchoMessage : Option Json → String
  | some (Json.obj fields) => stringFieldValue fields "message"
  | _ => ""

/-- executeTool: switch on the tool name; system_info and echo produce a
content block, any other name produces the in-band unknown-tool map. The
registry is not consulted here, mirroring the source. -/
def executeTool (si : SysInfo) (name : String) (args : Option Json) : Json :=
  if name = "system_info" then
    textContentResult (systemInfoText si)
  else if name = "echo" then
    textContentResult ("Echo: " ++ decodeEchoMessage args)
  else
    unknownToolResult

/-- The anonymous params struct of the tools/call branch:
`\x7bName string; Arguments json.RawMessage\x7d`. -/
structure CallParams where
  name : String
  arguments : Option Json
deriving Repr

/-- The ignored-error `json.Unmarshal(req.Params, &params)` of the tools/call
branch: an object contributes its `name` string occurrences and the raw value
of its last `arguments` occurrence; an absent params RawMessage (nil bytes),
`null` and any non-object value leave the zero values. The returned error is
discarded by the source. -/
def decodeCallParams : Option Json → CallParams
  | some (Json.obj fields) =>
      { name := stringFieldValue fields "name",
        arguments := lookupLast fields "arguments" }
  | _ => { name := "", arguments := none }

/-- The result map of the initialize branch. -/
def initializeResult : Json :=
  Json.obj
    [("protocolVersion", Json.str "2024-11-05"),
     ("capabilities", Json.obj
       [("tools", Json.obj [("listChanged", Json.bool true)])]),
     ("serverInfo", Json.obj
       [("name", Json.str "Go MCP Server"),
        ("version", Json.str "1.0.0")])]

/-- JSON encoding of a Tool value. -/
def toolToJson (t : Tool) : Json :=
  Json.obj
    [("name", Json.str t.name),
     ("description", Json.str t.description),
     ("inputSchema", t.inputSchema)]

/-- The result map of the tools/list branch: the registry values collected
into a slice. Go map iteration order is unspecified; the model lists the
entries in registry order, and the claims only use membership. -/
def toolsListResult (tools : List (String × Tool)) : Json :=
  Json.obj [("tools", Json.arr ((tools.map (fun p => p.2)).map toolToJson))]

/-- The response written when Unmarshal of the body fails. -/
def parseErrorResponse : JSONRPCResponse :=
  { jsonrpc := "2.0", id := Json.null, result := none,
    error := some { code := -32700, message := "Parse error" } }

/-- The method switch of handleMCP on a successfully decoded request. -/
def dispatch (tools : List (String × Tool)) (si : SysInfo)
    (req : JSONRPCRequest) : JSONRPCResponse :=
  if req.method = "initialize" then
    { jsonrpc := "2.0", id := req.id,
      result := some initializeResult, error := none }
  else if req.method = "tools/list" then
    { jsonrpc := "2.0", id := req.id,
      result := some (toolsListResult tools), error := none }
  else if req.method = "tools/call" then
    let params := decodeCallParams req.params
    { jsonrpc := "2.0", id := req.id,
      result := some (executeTool si params.name params.arguments),
      error := none }
  else
    { jsonrpc := "2.0", id := req.id, result := none,
      error := some { code := -32601, message := "Method not found" } }

/-- The JSON-RPC core of handleMCP on a POST body: `none` stands for a body
that is not well-formed JSON (the byte-level parse fails); a parsed body that
fails to Unmarshal into the request struct takes the same -32700 path, and a
decoded request is dispatched on its method. -/
def handleMCP (tools : List (String × Tool)) (si : SysInfo)
    (body : Option Json) : JSONRPCResponse :=
  match body.bind decodeRequest with
  | none => parseErrorResponse
  | some req => dispatch tools si req

/-! Helper lemmas shared by the claim theorems. -/

lemma handleMCP_decoded (tools : List (String × Tool)) (si : SysInfo)
    (body : Json) (req : JSONRPCRequest) (h : decodeRequest body = some req) :
    handleMCP tools si (some body) = dispatch tools si req := by
  unfold handleMCP
  have hb : (some body).bind decodeRequest = some req := h
  rw [hb]

lemma dispatch_initialize_eq (tools : List (String × Tool)) (si : SysInfo)
    (req : JSONRPCRequest) (hm : req.method = "initialize") :
    dispatch tools si req =
      { jsonrpc := "2.0", id := req.id,
        result := some initializeResult, error := none } := by
  unfold dispatch
  rw [hm]
  rfl

lemma dispatch_tools_list (tools : List (String × Tool)) (si : SysInfo)
    (req : JSONRPCRequest) (hm : req.method = "tools/list") :
    dispatch tools si req =
      { jsonrpc := "2.0", id := req.id,
        result := some (toolsListResult tools), error := none } := by
  unfold dispatch
  rw [hm]
  rfl

lemma dispatch_tools_call (tools : List (String × Tool)) (si : SysInfo)
    (req : JSONRPCRequest) (hm : req.method = "tools/call") :
    dispatch tools si req =
      { jsonrpc := "2.0", id := req.id,
        result := some (executeTool si (decodeCallParams req.params).name
          (decodeCallParams req.params).arguments),
        error := none } := by
  unfold dispatch
  rw [hm]
  rfl

lemma dispatch_default (tools : List (String × Tool)) (si : SysInfo)
    (req : JSONRPCRequest) (h1 : req.method ≠ "initialize")
    (h2 : req.method ≠ "tools/list") (h3 : req.method ≠ "tools/call") :
    dispatch tools si req =
      { jsonrpc := "2.0", id := req.id, result := none,
        error := some { code := -32601, message := "Method not found" } } := by
  unfold dispatch
  rw [if_neg h1, if_neg h2, if_neg h3]

lemma decodeEchoMessage_default (args : Option Json)
    (h : args = none ∨ args = some Json.null ∨
         ∀ fields, args ≠ some (Json.obj fields)) :
    decodeEchoMessage args = "" := by
  rcases h with h | h | h
  · subst h; rfl
  · subst h; rfl
  · cases args with
    | none => rfl
    | some j =>
        cases j with
        | obj fields => exact absurd rfl (h fields)
        | null => rfl
        | bool b => rfl
        | num n => rfl
        | str s => rfl
        | arr elems => rfl

lemma decodeCallParams_default (p : Option Json)
    (h : p = none ∨ ∀ fields, p ≠ some (Json.obj fields)) :
    decodeCallParams p = { name := "", arguments := none } := by
  rcases h with h | h
  · subst h; rfl
  · cases p with
    | none => rfl
    | some j =>
        cases j with
        | obj fields => exact absurd rfl (h fields)
        | null => rfl
        | bool b => rfl
        | num n => rfl
        | str s => rfl
        | arr elems => rfl

lemma mapLookup_setupTools_none (n : String)
    (h : mapLookup setupTools n = none) :
    n ≠ "system_info" ∧ n ≠ "echo" := by
  constructor
  · rintro rfl
    exact Option.noConfusion h
  · rintro rfl
    exact Option.noConfusion h

/-! The claims. -/

/-- C1: for every request body that decodes as a well-formed JSON-RPC
request, the response carries an identifier equal to the request identifier
(the absent and null cases included, both being `Json.null`), and contains
exactly one of a result payload or an error object — never both, never
neither. -/
theorem mcp_response_id_and_exclusive_payload (si : SysInfo) (body : Json)
    (req : JSONRPCRequest) (hdec : decodeRequest body = some req) :
    (handleMCP setupTools si (some body)).id = req.id ∧
    (((handleMCP setupTools si (some body)).result ≠ none ∧
        (handleMCP setupTools si (some body)).error = none) ∨
     ((handleMCP setupTools si (some body)).result = none ∧
        (handleMCP setupTools si (some body)).error ≠ none)) := by
  rw [handleMCP_decoded setupTools si body req hdec]
  unfold dispatch
  split_ifs <;> simp

/-- Witness for C1 at a concrete initialize request whose id is absent. -/
theorem mcp_response_id_and_exclusive_payload_witness :
    decodeRequest (Json.obj [("jsonrpc", Json.str "2.0"),
        ("method", Json.str "initialize")]) =
      some { jsonrpc := "2.0", id := Json.null, method := "initialize",
             params := none } ∧
    ((handleMCP setupTools ⟨"linux", "amd64", "go1.22.0", 8⟩
        (some (Json.obj [("jsonrpc", Json.str "2.0"),
          ("method", Json.str "initialize")]))).id = Json.null ∧
     (((handleMCP setupTools ⟨"linux", "amd64", "go1.22.0", 8⟩
        (some (Json.obj [("jsonrpc", Json.str "2.0"),
          ("method", Json.str "initialize")]))).result ≠ none ∧
        (handleMCP setupTools ⟨"linux", "amd64", "go1.22.0", 8⟩
        (some (Json.obj [("jsonrpc", Json.str "2.0"),
          ("method", Json.str "initialize")]))).error = none) ∨
      ((handleMCP setupTools ⟨"linux", "amd64", "go1.22.0", 8⟩
        (some (Json.obj [("jsonrpc", Json.str "2.0"),
          ("method", Json.str "initialize")]))).result = none ∧
        (handleMCP setupTools ⟨"linux", "amd64", "go1.22.0", 8⟩
        (some (Json.obj [("jsonrpc", Json.str "2.0"),
          ("method", Json.str "initialize")]))).error ≠ none))) :=
  ⟨rfl, mcp_response_id_and_exclusive_payload ⟨"linux", "amd64", "go1.22.0", 8⟩
    (Json.obj [("jsonrpc", Json.str "2.0"), ("method", Json.str "initialize")])
    { jsonrpc := "2.0", id := Json.null, method := "initialize",
      params := none } rfl⟩

/-- C2: a body that fails envelope decoding (malformed bytes, modelled by
`none`, or a parsed value Unmarshal rejects) yields error code -32700 with a
null identifier and no result; the response is exactly the parse-error
response built before the method switch, so dispatch is never reached. -/
theorem mcp_parse_error_short_circuit (si : SysInfo) (body : Option Json)
    (h : body.bind decodeRequest = none) :
    handleMCP setupTools si body = parseErrorResponse ∧
    (handleMCP setupTools si body).id = Json.null ∧
    (handleMCP setupTools si body).error =
      some { code := -32700, message := "Parse error" } ∧
    (handleMCP setupTools si body).result = none := by
  have hb : handleMCP setupTools si body = parseErrorResponse := by
    unfold handleMCP
    rw [h]
  exact ⟨hb, by rw [hb]; rfl, by rw [hb]; rfl, by rw [hb]; rfl⟩

/-- Witness for C2 at a body that is not well-formed JSON. -/
theorem mcp_parse_error_short_circuit_witness :
    (Option.none.bind decodeRequest = none) ∧
    (handleMCP setupTools ⟨"linux", "amd64", "go1.22.0", 8⟩ none =
       parseErrorResponse ∧
     (handleMCP setupTools ⟨"linux", "amd64", "go1.22.0", 8⟩ none).id =
       Json.null ∧
     (handleMCP setupTools ⟨"linux", "amd64", "go1.22.0", 8⟩ none).error =
       some { code := -32700, message := "Parse error" } ∧
     (handleMCP setupTools ⟨"linux", "amd64", "go1.22.0", 8⟩ none).result =
       none) :=
  ⟨rfl, mcp_parse_error_short_circuit ⟨"linux", "amd64", "go1.22.0", 8⟩
    none rfl⟩

/-- C3: a well-formed request whose method is none of initialize, tools/list
or tools/call gets error code -32601 with the request identifier echoed. -/
theorem mcp_unknown_method (si : SysInfo) (body : Json)
    (req : JSONRPCRequest) (hdec : decodeRequest body = some req)
    (h1 : req.method ≠ "initialize") (h2 : req.method ≠ "tools/list")
    (h3 : req.method ≠ "tools/call") :
    handleMCP setupTools si (some body) =
      { jsonrpc := "2.0", id := req.id, result := none,
        error := some { code := -32601, message := "Method not found" } } := by
  rw [handleMCP_decoded setupTools si body req hdec]
  exact dispatch_default setupTools si req h1 h2 h3

/-- Witness for C3 at method does-not-exist with identifier 5. -/
theorem mcp_unknown_method_witness :
    decodeRequest (Json.obj [("jsonrpc", Json.str "2.0"),
        ("id", Json.num 5), ("method", Json.str "does-not-exist")]) =
      some { jsonrpc := "2.0", id := Json.num 5, method := "does-not-exist",
             params := none } ∧
    handleMCP setupTools ⟨"linux", "amd64", "go1.22.0", 8⟩
        (some (Json.obj [("jsonrpc", Json.str "2.0"),
          ("id", Json.num 5), ("method", Json.str "does-not-exist")])) =
      { jsonrpc := "2.0", id := Json.num 5, result := none,
        error := some { code := -32601, message := "Method not found" } } :=
  ⟨rfl, mcp_unknown_method ⟨"linux", "amd64", "go1.22.0", 8⟩
    (Json.obj [("jsonrpc", Json.str "2.0"), ("id", Json.num 5),
      ("method", Json.str "does-not-exist")])
    { jsonrpc := "2.0", id := Json.num 5, method := "does-not-exist",
      params := none }
    rfl (by decide) (by decide) (by decide)⟩

/-- C4: a well-formed tools/call request whose tool name matches no
registered tool gets a successful envelope (no protocol-level error field)
whose result payload is the in-band map with "error" bound to
"Unknown tool". -/
theorem mcp_unknown_tool_in_band (si : SysInfo) (body : Json)
    (req : JSONRPCRequest) (hdec : decodeRequest body = some req)
    (hm : req.method = "tools/call")
    (hn : mapLookup setupTools (decodeCallParams req.params).name = none) :
    handleMCP setupTools si (some body) =
      { jsonrpc := "2.0", id := req.id,
        result := some (Json.obj [("error", Json.str "Unknown tool")]),
        error := none } := by
  rw [handleMCP_decoded setupTools si body req hdec,
      dispatch_tools_call setupTools si req hm]
  obtain ⟨h1, h2⟩ := mapLookup_setupTools_none _ hn
  unfold executeTool
  rw [if_neg h1, if_neg h2]
  rfl

/-- Witness for C4 at tool name bogus. -/
theorem mcp_unknown_tool_in_band_witness :
    decodeRequest (Json.obj [("jsonrpc", Json.str "2.0"),
        ("id", Json.num 2), ("method", Json.str "tools/call"),
        ("params", Json.obj [("name", Json.str "bogus"),
          ("arguments", Json.obj [])])]) =
      some { jsonrpc := "2.0", id := Json.num 2, method := "tools/call",
             params := some (Json.obj [("name", Json.str "bogus"),
               ("arguments", Json.obj [])]) } ∧
    mapLookup setupTools
      (decodeCallParams (some (Json.obj [("name", Json.str "bogus"),
        ("arguments", Json.obj [])]))).name = none ∧
    handleMCP setupTools ⟨"linux", "amd64", "go1.22.0", 8⟩
        (some (Json.obj [("jsonrpc", Json.str "2.0"),
          ("id", Json.num 2), ("method", Json.str "tools/call"),
          ("params", Json.obj [("name", Json.str "bogus"),
            ("arguments", Json.obj [])])])) =
      { jsonrpc := "2.0", id := Json.num 2,
        result := some (Json.obj [("error", Json.str "Unknown tool")]),
        error := none } :=
  ⟨rfl, rfl, mcp_unknown_tool_in_band ⟨"linux", "amd64", "go1.22.0", 8⟩
    (Json.obj [("jsonrpc", Json.str "2.0"), ("id", Json.num 2),
      ("method", Json.str "tools/call"),
      ("params", Json.obj [("name", Json.str "bogus"),
        ("arguments", Json.obj [])])])
    { jsonrpc := "2.0", id := Json.num 2, method := "tools/call",
      params := some (Json.obj [("name", Json.str "bogus"),
        ("arguments", Json.obj [])]) }
    rfl rfl rfl⟩

/-- C5: a well-formed initialize request always gets a result envelope, never
an error envelope, and the result embeds protocolVersion 2024-11-05 and
serverInfo.name Go MCP Server. -/
theorem mcp_initialize_succeeds (si : SysInfo) (body : Json)
    (req : JSONRPCRequest) (hdec : decodeRequest body = some req)
    (hm : req.method = "initialize") :
    handleMCP setupTools si (some body) =
      { jsonrpc := "2.0", id := req.id,
        result := some initializeResult, error := none } ∧
    initializeResult.getField "protocolVersion" =
      some (Json.str "2024-11-05") ∧
    (initializeResult.getField "serverInfo").bind
      (fun v => Json.getField v "name") = some (Json.str "Go MCP Server") := by
  refine ⟨?_, rfl, rfl⟩
  rw [handleMCP_decoded setupTools si body req hdec]
  exact dispatch_initialize_eq setupTools si req hm

/-- Witness for C5 at a concrete initialize request. -/
theorem mcp_initialize_succeeds_witness :
    decodeRequest (Json.obj [("jsonrpc", Json.str "2.0"),
        ("id", Json.num 1), ("method", Json.str "initialize")]) =
      some { jsonrpc := "2.0", id := Json.num 1, method := "initialize",
             params := none } ∧
    (handleMCP setupTools ⟨"linux", "amd64", "go1.22.0", 8⟩
        (some (Json.obj [("jsonrpc", Json.str "2.0"),
          ("id", Json.num 1), ("method", Json.str "initialize")])) =
      { jsonrpc := "2.0", id := Json.num 1,
        result := some initializeResult, error := none } ∧
     initializeResult.getField "protocolVersion" =
       some (Json.str "2024-11-05") ∧
     (initializeResult.getField "serverInfo").bind
       (fun v => Json.getField v "name") = some (Json.str "Go MCP Server")) :=
  ⟨rfl, mcp_initialize_succeeds ⟨"linux", "amd64", "go1.22.0", 8⟩
    (Json.obj [("jsonrpc", Json.str "2.0"), ("id", Json.num 1),
      ("method", Json.str "initialize")])
    { jsonrpc := "2.0", id := Json.num 1, method := "initialize",
      params := none } rfl rfl⟩

/-- C6: a well-formed tools/list request gets a result envelope whose tool
sequence contains an entry named echo whose input schema lists message as
required, and an entry named system_info (the claim leaves the order
unspecified; the model lists them in registry order). -/
theorem mcp_tools_list_contents (si : SysInfo) (body : Json)
    (req : JSONRPCRequest) (hdec : decodeRequest body = some req)
    (hm : req.method = "tools/list") :
    handleMCP setupTools si (some body) =
      { jsonrpc := "2.0", id := req.id,
        result := some (Json.obj [("tools",
          Json.arr [toolToJson systemInfoTool, toolToJson echoTool])]),
        error := none } ∧
    (∃ t ∈ [toolToJson systemInfoTool, toolToJson echoTool],
        Json.getField t "name" = some (Json.str "echo") ∧
        (Json.getField t "inputSchema").bind
          (fun s => Json.getField s "required") =
          some (Json.arr [Json.str "message"])) ∧
    (∃ t ∈ [toolToJson systemInfoTool, toolToJson echoTool],
        Json.getField t "name" = some (Json.str "system_info")) := by
  refine ⟨?_, ⟨toolToJson echoTool, by simp, rfl, rfl⟩,
    ⟨toolToJson systemInfoTool, by simp, rfl⟩⟩
  rw [handleMCP_decoded setupTools si body req hdec]
  exact dispatch_tools_list setupTools si req hm

/-- Witness for C6 at a concrete tools/list request. -/
theorem mcp_tools_list_contents_witness :
    decodeRequest (Json.obj [("jsonrpc", Json.str "2.0"),
        ("id", Json.num 4), ("method", Json.str "tools/list")]) =
      some { jsonrpc := "2.0", id := Json.num 4, method := "tools/list",
             params := none } ∧
    (handleMCP setupTools ⟨"linux", "amd64", "go1.22.0", 8⟩
        (some (Json.obj [("jsonrpc", Json.str "2.0"),
          ("id", Json.num 4), ("method", Json.str "tools/list")])) =
      { jsonrpc := "2.0", id := Json.num 4,
        result := some (Json.obj [("tools",
          Json.arr [toolToJson systemInfoTool, toolToJson echoTool])]),
        error := none } ∧
     (∃ t ∈ [toolToJson systemInfoTool, toolToJson echoTool],
        Json.getField t "name" = some (Json.str "echo") ∧
        (Json.getField t "inputSchema").bind
          (fun s => Json.getField s "required") =
          some (Json.arr [Json.str "message"])) ∧
     (∃ t ∈ [toolToJson systemInfoTool, toolToJson echoTool],
        Json.getField t "name" = some (Json.str "system_info"))) :=
  ⟨rfl, mcp_tools_list_contents ⟨"linux", "amd64", "go1.22.0", 8⟩
    (Json.obj [("jsonrpc", Json.str "2.0"), ("id", Json.num 4),
      ("method", Json.str "tools/list")])
    { jsonrpc := "2.0", id := Json.num 4, method := "tools/list",
      params := none } rfl rfl⟩

/-- C7: a well-formed tools/call request naming echo with arguments binding
message to a string gets a result whose content array holds exactly one
text entry whose text is the message prefixed with the literal label
Echo with a colon and a space. -/
theorem mcp_echo_prefixes_message (si : SysInfo) (body : Json)
    (req : JSONRPCRequest) (m : String)
    (hdec : decodeRequest body = some req)
    (hm : req.method = "tools/call")
    (hp : req.params = some (Json.obj [("name", Json.str "echo"),
      ("arguments", Json.obj [("message", Json.str m)])])) :
    handleMCP setupTools si (some body) =
      { jsonrpc := "2.0", id := req.id,
        result := some (Json.obj [("content", Json.arr
          [Json.obj [("type", Json.str "text"),
                     ("text", Json.str ("Echo: " ++ m))]])]),
        error := none } := by
  rw [handleMCP_decoded setupTools si body req hdec,
      dispatch_tools_call setupTools si req hm, hp]
  rfl

/-- Witness for C7 at message hi, whose echo text is Echo: hi. -/
theorem mcp_echo_prefixes_message_witness :
    decodeRequest (Json.obj [("jsonrpc", Json.str "2.0"),
        ("id", Json.num 3), ("method", Json.str "tools/call"),
        ("params", Json.obj [("name", Json.str "echo"),
          ("arguments", Json.obj [("message", Json.str "hi")])])]) =
      some { jsonrpc := "2.0", id := Json.num 3, method := "tools/call",
             params := some (Json.obj [("name", Json.str "echo"),
               ("arguments", Json.obj [("message", Json.str "hi")])]) } ∧
    handleMCP setupTools ⟨"linux", "amd64", "go1.22.0", 8⟩
        (some (Json.obj [("jsonrpc", Json.str "2.0"),
          ("id", Json.num 3), ("method", Json.str "tools/call"),
          ("params", Json.obj [("name", Json.str "echo"),
            ("arguments", Json.obj [("message", Json.str "hi")])])])) =
      { jsonrpc := "2.0", id := Json.num 3,
        result := some (Json.obj [("content", Json.arr
          [Json.obj [("type", Json.str "text"),
                     ("text", Json.str "Echo: hi")]])]),
        error := none } :=
  ⟨rfl, mcp_echo_prefixes_message ⟨"linux", "amd64", "go1.22.0", 8⟩
    (Json.obj [("jsonrpc", Json.str "2.0"), ("id", Json.num 3),
      ("method", Json.str "tools/call"),
      ("params", Json.obj [("name", Json.str "echo"),
        ("arguments", Json.obj [("message", Json.str "hi")])])])
    { jsonrpc := "2.0", id := Json.num 3, method := "tools/call",
      params := some (Json.obj [("name", Json.str "echo"),
        ("arguments", Json.obj [("message", Json.str "hi")])]) }
    "hi" rfl rfl rfl⟩

/-- C8: a well-formed tools/call request naming echo whose arguments are
missing, absent (`null` RawMessage) or fail to decode (a non-object value)
does not fail: the decode error is discarded, the message defaults to the
empty string and the tool returns a single text content entry whose text is
the bare label Echo with a colon and a space. -/
theorem mcp_echo_lenient_arguments (si : SysInfo) (body : Json)
    (req : JSONRPCRequest) (hdec : decodeRequest body = some req)
    (hm : req.method = "tools/call")
    (hn : (decodeCallParams req.params).name = "echo")
    (ha : (decodeCallParams req.params).arguments = none ∨
          (decodeCallParams req.params).arguments = some Json.null ∨
          ∀ fields, (decodeCallParams req.params).arguments ≠
            some (Json.obj fields)) :
    handleMCP setupTools si (some body) =
      { jsonrpc := "2.0", id := req.id,
        result := some (Json.obj [("content", Json.arr
          [Json.obj [("type", Json.str "text"),
                     ("text", Json.str "Echo: ")]])]),
        error := none } := by
  rw [handleMCP_decoded setupTools si body req hdec,
      dispatch_tools_call setupTools si req hm, hn]
  rw [show executeTool si "echo" ((decodeCallParams req.params).arguments) =
        textContentResult
          ("Echo: " ++ decodeEchoMessage
            ((decodeCallParams req.params).arguments)) from rfl]
  rw [decodeEchoMessage_default _ ha]
  rfl

/-- Witness for C8 at a tools/call naming echo with no arguments field. -/
theorem mcp_echo_lenient_arguments_witness :
    decodeRequest (Json.obj [("jsonrpc", Json.str "2.0"),
        ("id", Json.num 6), ("method", Json.str "tools/call"),
        ("params", Json.obj [("name", Json.str "echo")])]) =
      some { jsonrpc := "2.0", id := Json.num 6, method := "tools/call",
             params := some (Json.obj [("name", Json.str "echo")]) } ∧
    (decodeCallParams (some (Json.obj [("name", Json.str "echo")]))).name =
      "echo" ∧
    (decodeCallParams
       (some (Json.obj [("name", Json.str "echo")]))).arguments = none ∧
    handleMCP setupTools ⟨"linux", "amd64", "go1.22.0", 8⟩
        (some (Json.obj [("jsonrpc", Json.str "2.0"),
          ("id", Json.num 6), ("method", Json.str "tools/call"),
          ("params", Json.obj [("name", Json.str "echo")])])) =
      { jsonrpc := "2.0", id := Json.num 6,
        result := some (Json.obj [("content", Json.arr
          [Json.obj [("type", Json.str "text"),
                     ("text", Json.str "Echo: ")]])]),
        error := none } :=
  ⟨rfl, rfl, rfl, mcp_echo_lenient_arguments ⟨"linux", "amd64", "go1.22.0", 8⟩
    (Json.obj [("jsonrpc", Json.str "2.0"), ("id", Json.num 6),
      ("method", Json.str "tools/call"),
      ("params", Json.obj [("name", Json.str "echo")])])
    { jsonrpc := "2.0", id := Json.num 6, method := "tools/call",
      params := some (Json.obj [("name", Json.str "echo")]) }
    rfl rfl rfl (Or.inl rfl)⟩

/-- C9: any protocol-level error object the handler emits, on any execution
path, has code -32700 or code -32601. -/
theorem mcp_error_codes_closed (si : SysInfo) (body : Option Json)
    (e : JSONRPCError) (h : (handleMCP setupTools si body).error = some e) :
    e.code = -32700 ∨ e.code = -32601 := by
  cases hb : body.bind decodeRequest with
  | none =>
      have hh : handleMCP setupTools si body = parseErrorResponse := by
        unfold handleMCP
        rw [hb]
      rw [hh] at h
      have he : ({ code := -32700, message := "Parse error" } :
          JSONRPCError) = e := Option.some.inj h
      left
      rw [← he]
  | some req =>
      have hh : handleMCP setupTools si body = dispatch setupTools si req := by
        unfold handleMCP
        rw [hb]
      rw [hh] at h
      by_cases h1 : req.method = "initialize"
      · rw [dispatch_initialize_eq setupTools si req h1] at h
        exact Option.noConfusion h
      by_cases h2 : req.method = "tools/list"
      · rw [dispatch_tools_list setupTools si req h2] at h
        exact Option.noConfusion h
      by_cases h3 : req.method = "tools/call"
      · rw [dispatch_tools_call setupTools si req h3] at h
        exact Option.noConfusion h
      rw [dispatch_default setupTools si req h1 h2 h3] at h
      have he : ({ code := -32601, message := "Method not found" } :
          JSONRPCError) = e := Option.some.inj h
      right
      rw [← he]

/-- Witness for C9 at a malformed body carrying the parse-error object. -/
theorem mcp_error_codes_closed_witness :
    (handleMCP setupTools ⟨"linux", "amd64", "go1.22.0", 8⟩ none).error =
      some { code := -32700, message := "Parse error" } ∧
    (({ code := -32700, message := "Parse error" } : JSONRPCError).code =
        -32700 ∨
     ({ code := -32700, message := "Parse error" } : JSONRPCError).code =
        -32601) :=
  ⟨rfl, mcp_error_codes_closed ⟨"linux", "amd64", "go1.22.0", 8⟩ none
    { code := -32700, message := "Parse error" } rfl⟩

/-- C10: a well-formed tools/call request whose params field is absent, or is
a value other than a JSON object (so it does not decode as the
name/arguments shape), has its nested decode error discarded, its tool name
defaulting to the empty string, and gets the same successful envelope
carrying the in-band unknown-tool map as an explicitly unknown name. -/
theorem mcp_call_params_lenient (si : SysInfo) (body : Json)
    (req : JSONRPCRequest) (hdec : decodeRequest body = some req)
    (hm : req.method = "tools/call")
    (hp : req.params = none ∨
          ∀ fields, req.params ≠ some (Json.obj fields)) :
    (decodeCallParams req.params).name = "" ∧
    handleMCP setupTools si (some body) =
      { jsonrpc := "2.0", id := req.id,
        result := some (Json.obj [("error", Json.str "Unknown tool")]),
        error := none } := by
  have hd : decodeCallParams req.params = { name := "", arguments := none } :=
    decodeCallParams_default _ hp
  refine ⟨by rw [hd], ?_⟩
  rw [handleMCP_decoded setupTools si body req hdec,
      dispatch_tools_call setupTools si req hm, hd]
  rfl

/-- Witness for C10 at a tools/call request with no params field. -/
theorem mcp_call_params_lenient_witness :
    decodeRequest (Json.obj [("jsonrpc", Json.str "2.0"),
        ("id", Json.num 9), ("method", Json.str "tools/call")]) =
      some { jsonrpc := "2.0", id := Json.num 9, method := "tools/call",
             params := none } ∧
    ((decodeCallParams (none : Option Json)).name = "" ∧
     handleMCP setupTools ⟨"linux", "amd64", "go1.22.0", 8⟩
        (some (Json.obj [("jsonrpc", Json.str "2.0"),
          ("id", Json.num 9), ("method", Json.str "tools/call")])) =
      { jsonrpc := "2.0", id := Json.num 9,
        result := some (Json.obj [("error", Json.str "Unknown tool")]),
        error := none }) :=
  ⟨rfl, mcp_call_params_lenient ⟨"linux", "amd64", "go1.22.0", 8⟩
    (Json.obj [("jsonrpc", Json.str "2.0"), ("id", Json.num 9),
      ("method", Json.str "tools/call")])
    { jsonrpc := "2.0", id := Json.num 9, method := "tools/call",
      params := none }
    rfl rfl (Or.inl rfl)⟩

end MCP
